import Mathlib

/-!
Verification development for the `pokeys-toolkit/thread` crate.

Shallow embedding of the core data model and operations:
  * `src/state.rs`   — `DeviceState`, `SharedDeviceState`, `StateChangeType`,
                       `ThreadStatus`, getters/setters, `update`, notifications
  * `src/sync.rs`    — `DeviceSync::sync`
  * `src/worker.rs`  — the command handlers of `DeviceWorkerImpl::run_thread`
  * `src/controller.rs` — `ThreadControllerImpl::stop_all`,
                       `list_active_threads`

Modelling conventions:
  * Rust `u32`/`u64`/`usize` values are `Nat`, `i32` is `Int`.
  * Real time (`SystemTime::now`) is an explicit `now : Nat` argument.
  * The crossbeam notification channel is modelled as a list of per-channel
    message queues (`queues`) plus the single installed sender slot
    (`notification_tx`, holding a channel id); `notify` appends to the queue
    of the installed channel.  Operations additionally return the list of
    `notify` calls they made (their emission trace).
  * Opaque external identity data (`DeviceInfo`, `DeviceData` from
    `pokeys_lib`) is never inspected by any modelled operation and is omitted
    from the record.  Of `PinData` only the three fields the crate reads or
    writes are kept; of `PwmData` only `pwm_values`.
  * Fallible hardware calls are modelled by explicit result inputs
    (`Option String`: `none` = success, `some e` = the error `e`).
-/

namespace PokeysThread

/-- `pokeys_lib::io::PinData`, restricted to the fields this crate uses:
`digital_value_get`, `digital_value_set` (`u8`) and `analog_value` (`u32`). -/
structure PinData where
  digital_value_get : Nat
  digital_value_set : Nat
  analog_value : Nat
deriving DecidableEq, Repr

/-- A freshly initialised pin (all registers zero). -/
def PinData.default : PinData := ⟨0, 0, 0⟩

/-- `pokeys_lib::encoders::EncoderData`, restricted to `encoder_value` (`i32`). -/
structure EncoderData where
  encoder_value : Int
deriving DecidableEq, Repr

/-- `pokeys_lib::pwm::PwmData`, restricted to `pwm_values : Vec<u32>`. -/
structure PwmData where
  pwm_values : List Nat
deriving DecidableEq, Repr

/-- `pokeys_lib::models::DeviceModel`, restricted to its `name`. -/
structure DeviceModel where
  name : String
deriving DecidableEq, Repr

/-- `ThreadStatus` from `src/state.rs`. -/
inductive ThreadStatus where
  | Stopped
  | Running
  | Paused
  | Error
deriving DecidableEq, Repr

/-- `DeviceState` from `src/state.rs` (the opaque `device_info`/`device_data`
identity fields are omitted; the `custom_values` HashMap is an assoc list). -/
structure DeviceState where
  model : Option DeviceModel
  pins : List PinData
  encoders : List EncoderData
  pwm : PwmData
  last_update : Nat
  status : ThreadStatus
  error_message : Option String
  custom_values : List (String × String)
deriving DecidableEq, Repr

/-- `DeviceState::new` (`src/state.rs` lines 109-122). -/
def DeviceState.new : DeviceState :=
  { model := none
    pins := []
    encoders := []
    pwm := ⟨[]⟩
    last_update := 0
    status := ThreadStatus.Stopped
    error_message := none
    custom_values := [] }

/-- `DeviceState::get_digital_input` (`src/state.rs` lines 152-159):
`None` when `pin == 0 || pin > pins.len()`, otherwise
`Some(pins[pin-1].digital_value_get != 0)`. -/
def DeviceState.get_digital_input (s : DeviceState) (pin : Nat) : Option Bool :=
  if pin = 0 ∨ pin > s.pins.length then none
  else (s.pins[pin - 1]?).map (fun p => p.digital_value_get != 0)

/-- `DeviceState::get_analog_input` (`src/state.rs` lines 171-178). -/
def DeviceState.get_analog_input (s : DeviceState) (pin : Nat) : Option Nat :=
  if pin = 0 ∨ pin > s.pins.length then none
  else (s.pins[pin - 1]?).map (fun p => p.analog_value)

/-- `DeviceState::get_encoder_value` (`src/state.rs` lines 189-195). -/
def DeviceState.get_encoder_value (s : DeviceState) (encoder_index : Nat) :
    Option Int :=
  if encoder_index ≥ s.encoders.length then none
  else (s.encoders[encoder_index]?).map (fun e => e.encoder_value)

/-- `DeviceState::get_pwm_duty_cycle` (`src/state.rs` lines 207-213). -/
def DeviceState.get_pwm_duty_cycle (s : DeviceState) (channel : Nat) :
    Option Nat :=
  if channel ≥ s.pwm.pwm_values.length then none
  else s.pwm.pwm_values[channel]?

/-- `StateChangeType` from `src/state.rs`. -/
inductive StateChangeType where
  | DigitalInput (pin : Nat) (value : Bool)
  | DigitalOutput (pin : Nat) (value : Bool)
  | AnalogInput (pin : Nat) (value : Nat)
  | AnalogOutput (pin : Nat) (value : Nat)
  | EncoderValue (index : Nat) (value : Int)
  | PwmDutyCycle (channel : Nat) (duty : Nat)
  | ThreadStatus (status : ThreadStatus)
  | Error (message : Option String)
  | CustomValue (key : String) (value : String)
  | FullUpdate
deriving DecidableEq, Repr

/-- `SharedDeviceState` from `src/state.rs`.  The `RwLock`ed state, the two
atomics and the atomic timestamp become plain fields.  `queues` holds every
channel ever created by `setup_notifications` (indexed by creation order);
`notification_tx` is the single installed sender slot. -/
structure SharedDeviceState where
  state : DeviceState
  running : Bool
  paused : Bool
  last_update : Nat
  queues : List (List StateChangeType)
  notification_tx : Option Nat
deriving DecidableEq, Repr

/-- `SharedDeviceState::new` (`src/state.rs` lines 271-279). -/
def SharedDeviceState.new : SharedDeviceState :=
  { state := DeviceState.new
    running := false
    paused := false
    last_update := 0
    queues := []
    notification_tx := none }

/-- Replace the element at index `i` by `f` of it (Rust `v[i].field = x`). -/
def listModify {α : Type} (l : List α) (i : Nat) (f : α → α) : List α :=
  match l, i with
  | [], _ => []
  | x :: xs, 0 => f x :: xs
  | x :: xs, n + 1 => x :: listModify xs n f

/-- `SharedDeviceState::setup_notifications` (`src/state.rs` lines 286-290):
creates a fresh unbounded channel and **replaces** the stored sender with the
new one; returns the receiver (here: the new channel's id). -/
def SharedDeviceState.setup_notifications (s : SharedDeviceState) :
    Nat × SharedDeviceState :=
  (s.queues.length,
   { s with
      queues := s.queues ++ [[]]
      notification_tx := some s.queues.length })

/-- `SharedDeviceState::notify` (`src/state.rs` lines 297-301): send on the
installed sender if there is one, otherwise drop the message. -/
def SharedDeviceState.notify (s : SharedDeviceState) (c : StateChangeType) :
    SharedDeviceState :=
  match s.notification_tx with
  | none => s
  | some i => { s with queues := listModify s.queues i (fun q => q ++ [c]) }

/-- Deliver a whole emission trace in order. -/
def SharedDeviceState.sendAll (s : SharedDeviceState)
    (cs : List StateChangeType) : SharedDeviceState :=
  cs.foldl SharedDeviceState.notify s

/-- `SharedDeviceState::status` (`src/state.rs` lines 308-316). -/
def SharedDeviceState.status (s : SharedDeviceState) : ThreadStatus :=
  if !s.running then ThreadStatus.Stopped
  else if s.paused then ThreadStatus.Paused
  else ThreadStatus.Running

/-- `SharedDeviceState::set_running` (`src/state.rs` lines 323-330): store the
flag and emit a `ThreadStatus` notification iff the derived status changed.
Returns the new container and the emission trace. -/
def SharedDeviceState.set_running (s : SharedDeviceState) (running : Bool) :
    SharedDeviceState × List StateChangeType :=
  let old_status := s.status
  let s1 := { s with running := running }
  let new_status := s1.status
  if old_status ≠ new_status then
    (s1.notify (StateChangeType.ThreadStatus new_status),
     [StateChangeType.ThreadStatus new_status])
  else (s1, [])

/-- `SharedDeviceState::set_paused` (`src/state.rs` lines 337-344). -/
def SharedDeviceState.set_paused (s : SharedDeviceState) (paused : Bool) :
    SharedDeviceState × List StateChangeType :=
  let old_status := s.status
  let s1 := { s with paused := paused }
  let new_status := s1.status
  if old_status ≠ new_status then
    (s1.notify (StateChangeType.ThreadStatus new_status),
     [StateChangeType.ThreadStatus new_status])
  else (s1, [])

/-- `SharedDeviceState::update` (`src/state.rs` lines 439-450): run the closure
under the write lock, refresh the atomic timestamp, emit `FullUpdate`.  The
closure is modelled as a state transformer together with the `notify` calls it
makes itself (in the source the closure captures `&self`). -/
def SharedDeviceState.update (s : SharedDeviceState) (now : Nat)
    (f : DeviceState → DeviceState × List StateChangeType) :
    SharedDeviceState × List StateChangeType :=
  let fr := f s.state
  let trace := fr.2 ++ [StateChangeType.FullUpdate]
  let s1 := { s with state := fr.1, last_update := now }
  (s1.sendAll trace, trace)

/-- `SharedDeviceState::get_digital_input` (`src/state.rs` lines 485-487). -/
def SharedDeviceState.get_digital_input (s : SharedDeviceState) (pin : Nat) :
    Option Bool :=
  s.state.get_digital_input pin

/-- `SharedDeviceState::get_analog_input` (`src/state.rs` lines 499-501). -/
def SharedDeviceState.get_analog_input (s : SharedDeviceState) (pin : Nat) :
    Option Nat :=
  s.state.get_analog_input pin

/-- `SharedDeviceState::get_encoder_value` (`src/state.rs` lines 512-514). -/
def SharedDeviceState.get_encoder_value (s : SharedDeviceState)
    (encoder_index : Nat) : Option Int :=
  s.state.get_encoder_value encoder_index

/-- `SharedDeviceState::get_pwm_duty_cycle` (`src/state.rs` lines 526-528). -/
def SharedDeviceState.get_pwm_duty_cycle (s : SharedDeviceState)
    (channel : Nat) : Option Nat :=
  s.state.get_pwm_duty_cycle channel

/-- `SharedDeviceState::set_digital_output` (`src/state.rs` lines 536-544):
inside `update`, bounds-check the 1-based pin, write `digital_value_set` and
emit `DigitalOutput`; out of range the closure does nothing. -/
def SharedDeviceState.set_digital_output (s : SharedDeviceState) (now : Nat)
    (pin : Nat) (value : Bool) : SharedDeviceState × List StateChangeType :=
  s.update now (fun st =>
    if pin > 0 ∧ pin ≤ st.pins.length then
      ({ st with
          pins := listModify st.pins (pin - 1)
            (fun p => { p with digital_value_set := if value then 1 else 0 }) },
       [StateChangeType.DigitalOutput pin value])
    else (st, []))

/-- `SharedDeviceState::set_analog_output` (`src/state.rs` lines 552-560). -/
def SharedDeviceState.set_analog_output (s : SharedDeviceState) (now : Nat)
    (pin : Nat) (value : Nat) : SharedDeviceState × List StateChangeType :=
  s.update now (fun st =>
    if pin > 0 ∧ pin ≤ st.pins.length then
      ({ st with
          pins := listModify st.pins (pin - 1)
            (fun p => { p with analog_value := value }) },
       [StateChangeType.AnalogOutput pin value])
    else (st, []))

/-- `SharedDeviceState::set_pwm_duty_cycle` (`src/state.rs` lines 568-575). -/
def SharedDeviceState.set_pwm_duty_cycle (s : SharedDeviceState) (now : Nat)
    (channel : Nat) (duty : Nat) : SharedDeviceState × List StateChangeType :=
  s.update now (fun st =>
    if channel < st.pwm.pwm_values.length then
      ({ st with pwm := ⟨listModify st.pwm.pwm_values channel (fun _ => duty)⟩ },
       [StateChangeType.PwmDutyCycle channel duty])
    else (st, []))

/-- `SharedDeviceState::set_error` (`src/state.rs` lines 613-618). -/
def SharedDeviceState.set_error (s : SharedDeviceState) (now : Nat)
    (error : Option String) : SharedDeviceState × List StateChangeType :=
  s.update now (fun st =>
    ({ st with error_message := error }, [StateChangeType.Error error]))

/-- `SharedDeviceState::get_error` (`src/state.rs` lines 625-627). -/
def SharedDeviceState.get_error (s : SharedDeviceState) : Option String :=
  s.state.error_message

/-- `pokeys_lib::PoKeysDevice`, restricted to the fields this crate copies
into `DeviceState` (`update_from_device`); identity fields omitted. -/
structure PoKeysDevice where
  model : Option DeviceModel
  pins : List PinData
  encoders : List EncoderData
  pwm : PwmData
deriving DecidableEq, Repr

/-- `DeviceState::update_from_device` (`src/state.rs` lines 129-140): copy
every live field from the device and stamp the state's own timestamp. -/
def DeviceState.update_from_device (st : DeviceState) (device : PoKeysDevice)
    (now : Nat) : DeviceState :=
  { st with
      model := device.model
      pins := device.pins
      encoders := device.encoders
      pwm := device.pwm
      last_update := now }

/-- The per-pin diff notifications of
`update_from_device_with_notifications` (`src/state.rs` lines 378-406):
for each zipped (old, new) pin at 1-based number `i+1`, a `DigitalInput`
when `digital_value_get` changed, then a `DigitalOutput` when
`digital_value_set` changed, then an `AnalogInput` when `analog_value`
changed. -/
def pinDiffNotifications (old_pins new_pins : List PinData) :
    List StateChangeType :=
  ((old_pins.zip new_pins).enum.map (fun x =>
      let old_pin := x.2.1
      let new_pin := x.2.2
      let pin_number := x.1 + 1
      (if old_pin.digital_value_get ≠ new_pin.digital_value_get then
        [StateChangeType.DigitalInput pin_number
          (new_pin.digital_value_get != 0)]
      else []) ++
      (if old_pin.digital_value_set ≠ new_pin.digital_value_set then
        [StateChangeType.DigitalOutput pin_number
          (new_pin.digital_value_set != 0)]
      else []) ++
      (if old_pin.analog_value ≠ new_pin.analog_value then
        [StateChangeType.AnalogInput pin_number new_pin.analog_value]
      else []))).flatten

/-- The encoder diff notifications (`src/state.rs` lines 409-418). -/
def encoderDiffNotifications (old_encoders new_encoders : List EncoderData) :
    List StateChangeType :=
  ((old_encoders.zip new_encoders).enum.map (fun x =>
      if x.2.1.encoder_value ≠ x.2.2.encoder_value then
        [StateChangeType.EncoderValue x.1 x.2.2.encoder_value]
      else [])).flatten

/-- The PWM diff notifications (`src/state.rs` lines 421-433). -/
def pwmDiffNotifications (old_pwm new_pwm : List Nat) :
    List StateChangeType :=
  ((old_pwm.zip new_pwm).enum.map (fun x =>
      if x.2.1 ≠ x.2.2 then
        [StateChangeType.PwmDutyCycle x.1 x.2.2]
      else [])).flatten

/-- `SharedDeviceState::update_from_device_with_notifications`
(`src/state.rs` lines 351-434): snapshot the old pins/encoders/pwm, run
`update` with `update_from_device`, then notify one change per differing
field.  Returns the new container with its full emission trace. -/
def SharedDeviceState.update_from_device_with_notifications
    (s : SharedDeviceState) (device : PoKeysDevice) (now : Nat) :
    SharedDeviceState × List StateChangeType :=
  let old_pins := s.state.pins
  let old_encoders := s.state.encoders
  let old_pwm := s.state.pwm
  let r1 := s.update now (fun st => (st.update_from_device device now, []))
  let s1 := r1.1
  let diffs :=
    pinDiffNotifications old_pins s1.state.pins ++
    encoderDiffNotifications old_encoders s1.state.encoders ++
    pwmDiffNotifications old_pwm.pwm_values s1.state.pwm.pwm_values
  (s1.sendAll diffs, r1.2 ++ diffs)

/-- Which hardware read channels a `DeviceSync::sync` call attempted. -/
inductive ReadChannel where
  | digital
  | analog
  | encoder (i : Nat)
deriving DecidableEq, Repr

/-- The fallible hardware reads a single `DeviceSync::sync` performs:
`none` = success, `some e` = the transport error message `e`. -/
structure SyncHw where
  digitalRes : Option String
  analogRes : Option String
  encoderRes : Nat → Option String

/-- Result of one `DeviceSync::sync` call: the shared state afterwards, the
reads attempted in order, and `some errMsg` when the call returned `Err`
(`ThreadError::DeviceError`). -/
structure SyncResult where
  shared : SharedDeviceState
  attempted : List ReadChannel
  err : Option String

/-- The encoder loop of `DeviceSync::sync` (`src/sync.rs` lines 62-69): each
failing encoder records an error into the shared state and the loop continues
with the remaining encoders. -/
def syncEncoderLoop (io : SyncHw) (now : Nat) (s : SharedDeviceState) :
    Nat → SharedDeviceState
  | 0 => s
  | n + 1 =>
    let i := n
    let s' := syncEncoderLoop io now s n
    match io.encoderRes i with
    | some e =>
      (s'.set_error now
        (some ("Failed to refresh encoder " ++ toString i ++ ": " ++ e))).1
    | none => s'

/-- `DeviceSync::sync` (`src/sync.rs` lines 42-77): a digital-inputs read
failure records the error and returns `Err` immediately; then an
analog-inputs failure does the same; then every encoder is read with
per-encoder error recording; finally the shared state is updated from the
device with diff notifications and `Ok` is returned. -/
def DeviceSync.sync (io : SyncHw) (device : PoKeysDevice)
    (s : SharedDeviceState) (now : Nat) : SyncResult :=
  match io.digitalRes with
  | some e =>
    { shared := (s.set_error now
        (some ("Failed to refresh digital inputs: " ++ e))).1
      attempted := [ReadChannel.digital]
      err := some ("Failed to refresh digital inputs: " ++ e) }
  | none =>
    match io.analogRes with
    | some e =>
      { shared := (s.set_error now
          (some ("Failed to refresh analog inputs: " ++ e))).1
        attempted := [ReadChannel.digital, ReadChannel.analog]
        err := some ("Failed to refresh analog inputs: " ++ e) }
    | none =>
      let n := device.encoders.length
      let s1 := syncEncoderLoop io now s n
      let s2 := (s1.update_from_device_with_notifications device now).1
      { shared := s2
        attempted :=
          ReadChannel.digital :: ReadChannel.analog ::
            (List.range n).map ReadChannel.encoder
        err := none }

/-- The `DeviceCommand` variants handled by the modelled match arms of
`run_thread` (`src/commands.rs`); the servo/I2C/bulk/encoder-config variants
have independent match arms not needed by any claim and are omitted. -/
inductive DeviceCommand where
  | Terminate
  | Pause
  | Start
  | Restart
  | GetStatus
  | SetDigitalOutput (pin : Nat) (value : Bool)
  | SetAnalogOutput (pin : Nat) (value : Nat)
  | SetPwmDuty (channel : Nat) (duty : Nat)
  | UpdateModel (model : DeviceModel)
deriving DecidableEq, Repr

/-- The fallible hardware calls one loop iteration of `run_thread` may make:
`none` = success, `some e` = failure with message `e`.  `setPwmRes` is keyed
by the device **pin** passed to `set_pwm_duty_cycle_for_pin`.  On a
successful reconnect the fresh handle is `reconnectDevice`. -/
structure CmdHw where
  setDigitalRes : Option String
  setAnalogRes : Option String
  setPwmRes : Nat → Option String
  reconnectRes : Option String
  reconnectDevice : PoKeysDevice

/-- Result of processing one received command in `run_thread`'s match
(`src/worker.rs` lines 259-875). -/
structure CommandResult where
  device : PoKeysDevice
  shared : SharedDeviceState
  /-- pins passed to the hardware call `set_pwm_duty_cycle_for_pin` -/
  pwmPinsCalled : List Nat
  /-- number of reconnect attempts made (`connect_to_device`) -/
  reconnectAttempts : Nat
  /-- the arm executed `break` (Terminate) -/
  breakLoop : Bool
  /-- the arm executed `continue` (invalid PWM channel, line 385) -/
  skipped : Bool
deriving Repr

/-- The intermediate shared state of the `UpdateModel` handler
(`src/worker.rs` lines 788-800): the model swapped in under `update`, then
`set_paused(true)` for the duration of the reconnect. -/
def updateModelMidState (s : SharedDeviceState) (now : Nat)
    (model : DeviceModel) : SharedDeviceState :=
  (((s.update now (fun st => ({ st with model := some model }, []))).1).set_paused
    true).1

/-- The command match of `run_thread` (`src/worker.rs` lines 259-875),
restricted to the modelled variants.  The USB and network `UpdateModel`
reconnect branches (lines 803-870) are textually identical; they are
modelled once via `io.reconnectRes`. -/
def processCommand (io : CmdHw) (device : PoKeysDevice)
    (shared : SharedDeviceState) (now : Nat) (cmd : DeviceCommand) :
    CommandResult :=
  match cmd with
  | DeviceCommand.Terminate =>
    { device := device
      shared := (shared.set_running false).1
      pwmPinsCalled := []
      reconnectAttempts := 0
      breakLoop := true
      skipped := false }
  | DeviceCommand.Pause =>
    { device := device
      shared := (shared.set_paused true).1
      pwmPinsCalled := []
      reconnectAttempts := 0
      breakLoop := false
      skipped := false }
  | DeviceCommand.Start | DeviceCommand.Restart =>
    { device := device
      shared := (((shared.set_running true).1).set_paused false).1
      pwmPinsCalled := []
      reconnectAttempts := 0
      breakLoop := false
      skipped := false }
  | DeviceCommand.GetStatus =>
    { device := device
      shared := shared
      pwmPinsCalled := []
      reconnectAttempts := 0
      breakLoop := false
      skipped := false }
  | DeviceCommand.SetDigitalOutput pin value =>
    { device := device
      shared :=
        match io.setDigitalRes with
        | some e =>
          (shared.update now (fun st =>
            ({ st with
                error_message :=
                  some ("Failed to set digital output: " ++ e) }, []))).1
        | none => (shared.set_digital_output now pin value).1
      pwmPinsCalled := []
      reconnectAttempts := 0
      breakLoop := false
      skipped := false }
  | DeviceCommand.SetAnalogOutput pin value =>
    { device := device
      shared :=
        match io.setAnalogRes with
        | some e =>
          (shared.update now (fun st =>
            ({ st with
                error_message :=
                  some ("Failed to set analog output: " ++ e) }, []))).1
        | none => (shared.set_analog_output now pin value).1
      pwmPinsCalled := []
      reconnectAttempts := 0
      breakLoop := false
      skipped := false }
  | DeviceCommand.SetPwmDuty channel duty =>
    -- channel→pin map, `src/worker.rs` lines 372-387:
    -- 0→22, 1→21, 2→20, 3→19, 4→18, 5→17, otherwise log and `continue`
    if channel ≤ 5 then
      let pin := 22 - channel
      match io.setPwmRes pin with
      | some e =>
        { device := device
          shared := (shared.update now (fun st =>
              ({ st with
                  error_message :=
                    some ("Failed to set PWM duty cycle: " ++ e) }, []))).1
          pwmPinsCalled := [pin]
          reconnectAttempts := 0
          breakLoop := false
          skipped := false }
      | none =>
        { device := device
          shared := (shared.set_pwm_duty_cycle now channel duty).1
          pwmPinsCalled := [pin]
          reconnectAttempts := 0
          breakLoop := false
          skipped := false }
    else
      { device := device
        shared := shared
        pwmPinsCalled := []
        reconnectAttempts := 0
        breakLoop := false
        skipped := true }
  | DeviceCommand.UpdateModel model =>
    let device1 := { device with model := some model }
    let mid := updateModelMidState shared now model
    match io.reconnectRes with
    | none =>
      let new_device :=
        { io.reconnectDevice with model := mid.state.model }
      { device := new_device
        shared := (mid.set_paused false).1
        pwmPinsCalled := []
        reconnectAttempts := 1
        breakLoop := false
        skipped := false }
    | some e =>
      let s2 := (mid.update now (fun st =>
          ({ st with
              error_message :=
                some ("Failed to reconnect to device: " ++ e) }, []))).1
      { device := device1
        shared := (s2.set_paused false).1
        pwmPinsCalled := []
        reconnectAttempts := 1
        breakLoop := false
        skipped := false }

/-- Result of one full iteration of the `run_thread` main loop
(`src/worker.rs` lines 243-919). -/
structure TickResult where
  device : PoKeysDevice
  shared : SharedDeviceState
  pwmPinsCalled : List Nat
  reconnectAttempts : Nat
  breakLoop : Bool
  /-- the sync step ran this tick -/
  syncAttempted : Bool
  /-- reads attempted by the sync step -/
  readsAttempted : List ReadChannel
  /-- `some e` when the sync step returned `Err` -/
  syncErr : Option String
deriving Repr

/-- The tail of one `run_thread` loop iteration (`src/worker.rs` lines
899-918), after the command drain produced `cr`: if the arm broke or ran
`continue`, or the status is `Paused` (sleep and skip sync), or the sync
interval has not elapsed, no sync runs; otherwise `DeviceSync::sync` runs
and an `Err` from it is only logged — the loop continues (lines 907-914). -/
def tickFinish (sio : SyncHw) (now : Nat) (shouldSync : Bool)
    (cr : CommandResult) : TickResult :=
  if cr.breakLoop ∨ cr.skipped ∨ cr.shared.status = ThreadStatus.Paused
      ∨ ¬shouldSync then
    { device := cr.device
      shared := cr.shared
      pwmPinsCalled := cr.pwmPinsCalled
      reconnectAttempts := cr.reconnectAttempts
      breakLoop := cr.breakLoop
      syncAttempted := false
      readsAttempted := []
      syncErr := none }
  else
    let sr := DeviceSync.sync sio cr.device cr.shared now
    { device := cr.device
      shared := sr.shared
      pwmPinsCalled := cr.pwmPinsCalled
      reconnectAttempts := cr.reconnectAttempts
      breakLoop := false
      syncAttempted := true
      readsAttempted := sr.attempted
      syncErr := sr.err }

/-- One iteration of the `run_thread` main loop (`src/worker.rs` lines
243-919): non-blocking drain of at most one command (`recv` is `some cmd`,
`Empty` is `none` with `chanDisconnected = false`, `Disconnected` is `none`
with `chanDisconnected = true`), then the sync tail (`tickFinish`). -/
def runTick (cio : CmdHw) (sio : SyncHw) (device : PoKeysDevice)
    (shared : SharedDeviceState) (now : Nat) (recv : Option DeviceCommand)
    (chanDisconnected : Bool) (shouldSync : Bool) : TickResult :=
  let cr : CommandResult :=
    match recv with
    | some cmd => processCommand cio device shared now cmd
    | none =>
      if chanDisconnected then
        { device := device
          shared := (shared.set_running false).1
          pwmPinsCalled := []
          reconnectAttempts := 0
          breakLoop := true
          skipped := false }
      else
        { device := device
          shared := shared
          pwmPinsCalled := []
          reconnectAttempts := 0
          breakLoop := false
          skipped := false }
  tickFinish sio now shouldSync cr

/-- One registry entry of `ThreadControllerImpl.threads`; `sendFails` models
whether `send_command(Terminate)` on that worker's channel fails. -/
structure WorkerEntry where
  thread_id : Nat
  sendFails : Bool
deriving DecidableEq, Repr

/-- `ThreadControllerImpl`, restricted to its `threads` registry
(`HashMap<u32, Box<dyn DeviceWorker>>`, modelled as an assoc list in
iteration order). -/
structure ThreadControllerImpl where
  threads : List WorkerEntry
deriving DecidableEq, Repr

/-- `ThreadControllerImpl::list_active_threads` (`src/controller.rs` lines
831-834). -/
def ThreadControllerImpl.list_active_threads (c : ThreadControllerImpl) :
    List Nat :=
  c.threads.map (fun t => t.thread_id)

/-- Result of `ThreadControllerImpl::stop_all`: the controller afterwards,
the thread ids a `Terminate` send was attempted for (in order), the ids whose
send failed (the collected errors), and whether the call returned `Ok`. -/
structure StopAllResult where
  controller : ThreadControllerImpl
  terminated : List Nat
  errors : List Nat
  ok : Bool
deriving DecidableEq, Repr

/-- `ThreadControllerImpl::stop_all` (`src/controller.rs` lines 641-666):
send `Terminate` to every registered worker, pushing each send failure onto
`errors` and never stopping early; clear the registry unconditionally; return
`Ok` iff `errors` stayed empty (otherwise `Err(ThreadJoinError)`). -/
def ThreadControllerImpl.stop_all (c : ThreadControllerImpl) : StopAllResult :=
  let step := c.threads.foldl
    (fun (acc : List Nat × List Nat) t =>
      (acc.1 ++ [t.thread_id],
       if t.sendFails then acc.2 ++ [t.thread_id] else acc.2))
    ([], [])
  { controller := { threads := [] }
    terminated := step.1
    errors := step.2
    ok := step.2.isEmpty }

/-! ## Helper lemmas -/

theorem listModify_length {α : Type} (l : List α) (i : Nat) (f : α → α) :
    (listModify l i f).length = l.length := by
  induction l generalizing i with
  | nil => rfl
  | cons x xs ih =>
    cases i with
    | zero => rfl
    | succ n => simp [listModify, ih]

theorem listModify_getElem? {α : Type} (l : List α) (i j : Nat) (f : α → α) :
    (listModify l i f)[j]? = if j = i then (l[j]?).map f else l[j]? := by
  induction l generalizing i j with
  | nil => simp [listModify]
  | cons x xs ih =>
    cases i with
    | zero =>
      cases j with
      | zero => simp [listModify]
      | succ m => simp [listModify]
    | succ n =>
      cases j with
      | zero => simp [listModify]
      | succ m => simpa [listModify] using ih n m

theorem getElem?_eq_some_getD {α : Type} (l : List α) (i : Nat) (d : α)
    (h : i < l.length) : l[i]? = some (l.getD i d) := by
  rw [List.getElem?_eq_getElem h, List.getD_eq_getElem?_getD,
    List.getElem?_eq_getElem h]
  rfl

theorem notify_state (s : SharedDeviceState) (c : StateChangeType) :
    (s.notify c).state = s.state := by
  unfold SharedDeviceState.notify
  cases s.notification_tx <;> rfl

theorem notify_running (s : SharedDeviceState) (c : StateChangeType) :
    (s.notify c).running = s.running := by
  unfold SharedDeviceState.notify
  cases s.notification_tx <;> rfl

theorem notify_paused (s : SharedDeviceState) (c : StateChangeType) :
    (s.notify c).paused = s.paused := by
  unfold SharedDeviceState.notify
  cases s.notification_tx <;> rfl

theorem notify_last_update (s : SharedDeviceState) (c : StateChangeType) :
    (s.notify c).last_update = s.last_update := by
  unfold SharedDeviceState.notify
  cases s.notification_tx <;> rfl

theorem notify_notification_tx (s : SharedDeviceState) (c : StateChangeType) :
    (s.notify c).notification_tx = s.notification_tx := by
  unfold SharedDeviceState.notify
  cases htx : s.notification_tx <;> simp [htx]

theorem sendAll_cons (s : SharedDeviceState) (c : StateChangeType)
    (cs : List StateChangeType) :
    s.sendAll (c :: cs) = (s.notify c).sendAll cs := rfl

theorem sendAll_state (cs : List StateChangeType) (s : SharedDeviceState) :
    (s.sendAll cs).state = s.state := by
  induction cs generalizing s with
  | nil => rfl
  | cons c cs ih => rw [sendAll_cons, ih, notify_state]

theorem sendAll_running (cs : List StateChangeType) (s : SharedDeviceState) :
    (s.sendAll cs).running = s.running := by
  induction cs generalizing s with
  | nil => rfl
  | cons c cs ih => rw [sendAll_cons, ih, notify_running]

theorem sendAll_paused (cs : List StateChangeType) (s : SharedDeviceState) :
    (s.sendAll cs).paused = s.paused := by
  induction cs generalizing s with
  | nil => rfl
  | cons c cs ih => rw [sendAll_cons, ih, notify_paused]

theorem sendAll_last_update (cs : List StateChangeType)
    (s : SharedDeviceState) : (s.sendAll cs).last_update = s.last_update := by
  induction cs generalizing s with
  | nil => rfl
  | cons c cs ih => rw [sendAll_cons, ih, notify_last_update]

theorem sendAll_notification_tx (cs : List StateChangeType)
    (s : SharedDeviceState) :
    (s.sendAll cs).notification_tx = s.notification_tx := by
  induction cs generalizing s with
  | nil => rfl
  | cons c cs ih => rw [sendAll_cons, ih, notify_notification_tx]

theorem update_fst_state (s : SharedDeviceState) (now : Nat)
    (f : DeviceState → DeviceState × List StateChangeType) :
    (s.update now f).1.state = (f s.state).1 := by
  unfold SharedDeviceState.update
  rw [sendAll_state]

theorem update_fst_last_update (s : SharedDeviceState) (now : Nat)
    (f : DeviceState → DeviceState × List StateChangeType) :
    (s.update now f).1.last_update = now := by
  unfold SharedDeviceState.update
  rw [sendAll_last_update]

theorem update_fst_running (s : SharedDeviceState) (now : Nat)
    (f : DeviceState → DeviceState × List StateChangeType) :
    (s.update now f).1.running = s.running := by
  unfold SharedDeviceState.update
  rw [sendAll_running]

theorem update_fst_paused (s : SharedDeviceState) (now : Nat)
    (f : DeviceState → DeviceState × List StateChangeType) :
    (s.update now f).1.paused = s.paused := by
  unfold SharedDeviceState.update
  rw [sendAll_paused]

theorem update_snd (s : SharedDeviceState) (now : Nat)
    (f : DeviceState → DeviceState × List StateChangeType) :
    (s.update now f).2 = (f s.state).2 ++ [StateChangeType.FullUpdate] := rfl

/-! ## Claim theorems -/

/-- Example flag states used by witnesses. -/
def stoppedExample : SharedDeviceState := SharedDeviceState.new

def runningExample : SharedDeviceState :=
  { SharedDeviceState.new with running := true }

def pausedExample : SharedDeviceState :=
  { SharedDeviceState.new with running := true, paused := true }

/-- **C4**: `status()` is a pure function of the two flags: `running = false`
gives `Stopped`, `running ∧ paused` gives `Paused`, `running ∧ ¬paused` gives
`Running`; the `Error` variant is never returned; and the result depends on
nothing but the two flags. -/
theorem status_pure_function_of_flags (s t : SharedDeviceState) :
    (s.running = false → s.status = ThreadStatus.Stopped)
    ∧ (s.running = true → s.paused = true → s.status = ThreadStatus.Paused)
    ∧ (s.running = true → s.paused = false → s.status = ThreadStatus.Running)
    ∧ s.status ≠ ThreadStatus.Error
    ∧ (s.running = t.running → s.paused = t.paused → s.status = t.status) := by
  refine ⟨?_, ?_, ?_, ?_, ?_⟩
  · intro h; simp [SharedDeviceState.status, h]
  · intro hr hp; simp [SharedDeviceState.status, hr, hp]
  · intro hr hp; simp [SharedDeviceState.status, hr, hp]
  · unfold SharedDeviceState.status
    cases hr : s.running <;> cases hp : s.paused <;> simp
  · intro hr hp; simp [SharedDeviceState.status, ← hr, ← hp]

/-- Witness for `status_pure_function_of_flags` on the three flag
combinations. -/
theorem status_pure_function_of_flags_witness :
    stoppedExample.status = ThreadStatus.Stopped
    ∧ runningExample.status = ThreadStatus.Running
    ∧ pausedExample.status = ThreadStatus.Paused
    ∧ runningExample.status ≠ ThreadStatus.Error
    ∧ runningExample.status
        = { runningExample with last_update := 5 }.status :=
  ⟨(status_pure_function_of_flags stoppedExample stoppedExample).1 rfl,
   (status_pure_function_of_flags runningExample runningExample).2.2.1 rfl rfl,
   (status_pure_function_of_flags pausedExample pausedExample).2.1 rfl rfl,
   (status_pure_function_of_flags runningExample runningExample).2.2.2.1,
   (status_pure_function_of_flags runningExample
      { runningExample with last_update := 5 }).2.2.2.2 rfl rfl⟩

/-- **C3**: every `update(f)` call emits the closure's own notifications
followed by exactly one `FullUpdate` (so exactly one more `FullUpdate` than
`f` emits itself, for every closure `f`) and refreshes the last-update
timestamp. -/
theorem update_emits_exactly_one_fullupdate (s : SharedDeviceState)
    (now : Nat) (f : DeviceState → DeviceState × List StateChangeType) :
    (s.update now f).2 = (f s.state).2 ++ [StateChangeType.FullUpdate]
    ∧ (s.update now f).2.count StateChangeType.FullUpdate
        = (f s.state).2.count StateChangeType.FullUpdate + 1
    ∧ (s.update now f).1.last_update = now := by
  refine ⟨update_snd s now f, ?_, update_fst_last_update s now f⟩
  rw [update_snd, List.count_append]
  simp

/-- **C9**: an out-of-range `set_digital_output` / `set_analog_output` /
`set_pwm_duty_cycle` leaves the locked device state (pins and PWM arrays
included) unchanged and emits no field-specific notification, yet still emits
exactly one `FullUpdate` and refreshes the last-update timestamp. -/
theorem out_of_range_setters_not_complete_noop (s : SharedDeviceState)
    (now pin channel : Nat) (v : Bool) (av duty : Nat) :
    (pin = 0 ∨ pin > s.state.pins.length →
        (s.set_digital_output now pin v).1.state = s.state
      ∧ (s.set_digital_output now pin v).2 = [StateChangeType.FullUpdate]
      ∧ (s.set_digital_output now pin v).1.last_update = now)
    ∧ (pin = 0 ∨ pin > s.state.pins.length →
        (s.set_analog_output now pin av).1.state = s.state
      ∧ (s.set_analog_output now pin av).2 = [StateChangeType.FullUpdate]
      ∧ (s.set_analog_output now pin av).1.last_update = now)
    ∧ (channel ≥ s.state.pwm.pwm_values.length →
        (s.set_pwm_duty_cycle now channel duty).1.state = s.state
      ∧ (s.set_pwm_duty_cycle now channel duty).2 = [StateChangeType.FullUpdate]
      ∧ (s.set_pwm_duty_cycle now channel duty).1.last_update = now) := by
  refine ⟨?_, ?_, ?_⟩
  · intro h
    have hc : ¬(pin > 0 ∧ pin ≤ s.state.pins.length) := by
      rcases h with h | h <;> omega
    unfold SharedDeviceState.set_digital_output
    rw [update_fst_state, update_snd, update_fst_last_update]
    rw [if_neg hc]
    exact ⟨rfl, rfl, rfl⟩
  · intro h
    have hc : ¬(pin > 0 ∧ pin ≤ s.state.pins.length) := by
      rcases h with h | h <;> omega
    unfold SharedDeviceState.set_analog_output
    rw [update_fst_state, update_snd, update_fst_last_update]
    rw [if_neg hc]
    exact ⟨rfl, rfl, rfl⟩
  · intro h
    have hc : ¬(channel < s.state.pwm.pwm_values.length) := by omega
    unfold SharedDeviceState.set_pwm_duty_cycle
    rw [update_fst_state, update_snd, update_fst_last_update]
    rw [if_neg hc]
    exact ⟨rfl, rfl, rfl⟩

/-- Witness for `out_of_range_setters_not_complete_noop`: a fresh state has
no pins and no PWM channels, so index 1 is out of range everywhere. -/
theorem out_of_range_setters_not_complete_noop_witness :
    ((SharedDeviceState.new.set_digital_output 7 1 true).1.state
        = SharedDeviceState.new.state
      ∧ (SharedDeviceState.new.set_digital_output 7 1 true).2
        = [StateChangeType.FullUpdate]
      ∧ (SharedDeviceState.new.set_digital_output 7 1 true).1.last_update = 7)
    ∧ ((SharedDeviceState.new.set_analog_output 7 1 42).1.state
        = SharedDeviceState.new.state
      ∧ (SharedDeviceState.new.set_analog_output 7 1 42).2
        = [StateChangeType.FullUpdate]
      ∧ (SharedDeviceState.new.set_analog_output 7 1 42).1.last_update = 7)
    ∧ ((SharedDeviceState.new.set_pwm_duty_cycle 7 1 42).1.state
        = SharedDeviceState.new.state
      ∧ (SharedDeviceState.new.set_pwm_duty_cycle 7 1 42).2
        = [StateChangeType.FullUpdate]
      ∧ (SharedDeviceState.new.set_pwm_duty_cycle 7 1 42).1.last_update = 7) :=
  ⟨(out_of_range_setters_not_complete_noop SharedDeviceState.new 7 1 1 true
      42 42).1 (by decide),
   (out_of_range_setters_not_complete_noop SharedDeviceState.new 7 1 1 true
      42 42).2.1 (by decide),
   (out_of_range_setters_not_complete_noop SharedDeviceState.new 7 1 1 true
      42 42).2.2 (by decide)⟩

/-- Example `DeviceState` used by getter witnesses: two pins (pin 1 reads
high with analog value 500), one encoder at -3, one PWM channel at 123. -/
def exampleDeviceState : DeviceState :=
  { DeviceState.new with
      pins := [⟨1, 0, 500⟩, ⟨0, 1, 0⟩]
      encoders := [⟨-3⟩]
      pwm := ⟨[123]⟩ }

/-- **C6**: the bounds-checked getters are total: `get_digital_input` and
`get_analog_input` return `none` exactly when `pin = 0` or
`pin > pins.length`, `get_encoder_value` returns `none` exactly when
`encoder_index ≥ encoders.length`, `get_pwm_duty_cycle` returns `none`
exactly when `channel ≥ pwm_values.length`; otherwise each returns `some` of
the stored value. -/
theorem bounds_checked_getters_total (s : DeviceState)
    (pin encoder_index channel : Nat) :
    (pin = 0 ∨ pin > s.pins.length → s.get_digital_input pin = none)
    ∧ (pin ≠ 0 → pin ≤ s.pins.length →
        s.get_digital_input pin
          = some ((s.pins.getD (pin - 1) PinData.default).digital_value_get
              != 0))
    ∧ (pin = 0 ∨ pin > s.pins.length → s.get_analog_input pin = none)
    ∧ (pin ≠ 0 → pin ≤ s.pins.length →
        s.get_analog_input pin
          = some ((s.pins.getD (pin - 1) PinData.default).analog_value))
    ∧ (encoder_index ≥ s.encoders.length →
        s.get_encoder_value encoder_index = none)
    ∧ (encoder_index < s.encoders.length →
        s.get_encoder_value encoder_index
          = some ((s.encoders.getD encoder_index ⟨0⟩).encoder_value))
    ∧ (channel ≥ s.pwm.pwm_values.length →
        s.get_pwm_duty_cycle channel = none)
    ∧ (channel < s.pwm.pwm_values.length →
        s.get_pwm_duty_cycle channel
          = some (s.pwm.pwm_values.getD channel 0)) := by
  refine ⟨?_, ?_, ?_, ?_, ?_, ?_, ?_, ?_⟩
  · intro h
    unfold DeviceState.get_digital_input
    rw [if_pos h]
  · intro h1 h2
    have hc : ¬(pin = 0 ∨ pin > s.pins.length) := by
      push_neg; exact ⟨h1, not_lt.1 (by omega)⟩
    have hlt : pin - 1 < s.pins.length := by omega
    unfold DeviceState.get_digital_input
    rw [if_neg hc, getElem?_eq_some_getD s.pins (pin - 1) PinData.default hlt]
    rfl
  · intro h
    unfold DeviceState.get_analog_input
    rw [if_pos h]
  · intro h1 h2
    have hc : ¬(pin = 0 ∨ pin > s.pins.length) := by
      push_neg; exact ⟨h1, not_lt.1 (by omega)⟩
    have hlt : pin - 1 < s.pins.length := by omega
    unfold DeviceState.get_analog_input
    rw [if_neg hc, getElem?_eq_some_getD s.pins (pin - 1) PinData.default hlt]
    rfl
  · intro h
    unfold DeviceState.get_encoder_value
    rw [if_pos h]
  · intro h
    have hc : ¬(encoder_index ≥ s.encoders.length) := by omega
    unfold DeviceState.get_encoder_value
    rw [if_neg hc,
      getElem?_eq_some_getD s.encoders encoder_index ⟨0⟩ h]
    rfl
  · intro h
    unfold DeviceState.get_pwm_duty_cycle
    rw [if_pos h]
  · intro h
    have hc : ¬(channel ≥ s.pwm.pwm_values.length) := by omega
    unfold DeviceState.get_pwm_duty_cycle
    rw [if_neg hc,
      getElem?_eq_some_getD s.pwm.pwm_values channel 0 h]

/-- Witness for `bounds_checked_getters_total` on `exampleDeviceState`. -/
theorem bounds_checked_getters_total_witness :
    exampleDeviceState.get_digital_input 3 = none
    ∧ exampleDeviceState.get_digital_input 1 = some true
    ∧ exampleDeviceState.get_analog_input 0 = none
    ∧ exampleDeviceState.get_analog_input 1 = some 500
    ∧ exampleDeviceState.get_encoder_value 1 = none
    ∧ exampleDeviceState.get_encoder_value 0 = some (-3)
    ∧ exampleDeviceState.get_pwm_duty_cycle 1 = none
    ∧ exampleDeviceState.get_pwm_duty_cycle 0 = some 123 :=
  ⟨(bounds_checked_getters_total exampleDeviceState 3 0 0).1
      (by right; decide),
   ((bounds_checked_getters_total exampleDeviceState 1 0 0).2.1
      (by decide) (by decide)).trans (by decide),
   (bounds_checked_getters_total exampleDeviceState 0 0 0).2.2.1
      (by left; rfl),
   ((bounds_checked_getters_total exampleDeviceState 1 0 0).2.2.2.1
      (by decide) (by decide)).trans (by decide),
   (bounds_checked_getters_total exampleDeviceState 0 1 0).2.2.2.2.1
      (by decide),
   ((bounds_checked_getters_total exampleDeviceState 0 0 0).2.2.2.2.2.1
      (by decide)).trans (by decide),
   (bounds_checked_getters_total exampleDeviceState 0 0 1).2.2.2.2.2.2.1
      (by decide),
   ((bounds_checked_getters_total exampleDeviceState 0 0 0).2.2.2.2.2.2.2
      (by decide)).trans (by decide)⟩

/-- `StateObserver` (`src/observer.rs`), restricted to the fields relevant to
subscription: the thread id and the receiver obtained from
`setup_notifications` (here: the channel id). -/
structure StateObserver where
  thread_id : Nat
  rx : Nat
deriving DecidableEq, Repr

/-- `StateObserver::new` (`src/observer.rs` lines 21-28): subscribing calls
`setup_notifications` on the shared state. -/
def StateObserver.new (thread_id : Nat) (s : SharedDeviceState) :
    StateObserver × SharedDeviceState :=
  let r := s.setup_notifications
  ({ thread_id := thread_id, rx := r.1 }, r.2)

/-- A crossbeam receiver is disconnected when every sender for its channel
has been dropped.  The only sender ever created for channel `o.rx` is the one
stored into the single `notification_tx` slot by `setup_notifications`, and
it is dropped when the slot is overwritten; so `o`'s receiver is disconnected
exactly when the slot no longer holds `o.rx`'s sender. -/
def StateObserver.receiverDisconnected (o : StateObserver)
    (s : SharedDeviceState) : Prop :=
  s.notification_tx ≠ some o.rx

/-- **C5**: the notification channel is single-slot: creating a second
Observer on the same state replaces the installed sender, so a subsequent
notification is delivered to the second Observer's queue and never to the
first Observer's queue, and the first Observer's receiver is disconnected. -/
theorem single_slot_subscriber_replaces (s : SharedDeviceState) (t1 t2 : Nat)
    (c : StateChangeType) :
    (StateObserver.new t1 s).1.rx
        ≠ (StateObserver.new t2 (StateObserver.new t1 s).2).1.rx
    ∧ ((StateObserver.new t2 (StateObserver.new t1 s).2).2).notification_tx
        = some (StateObserver.new t2 (StateObserver.new t1 s).2).1.rx
    ∧ (((StateObserver.new t2 (StateObserver.new t1 s).2).2).notify c).queues[
        (StateObserver.new t2 (StateObserver.new t1 s).2).1.rx]? = some [c]
    ∧ (((StateObserver.new t2 (StateObserver.new t1 s).2).2).notify c).queues[
        (StateObserver.new t1 s).1.rx]? = some []
    ∧ (StateObserver.new t1 s).1.receiverDisconnected
        (StateObserver.new t2 (StateObserver.new t1 s).2).2
    ∧ ¬ (StateObserver.new t2 (StateObserver.new t1 s).2).1.receiverDisconnected
        (StateObserver.new t2 (StateObserver.new t1 s).2).2 := by
  unfold StateObserver.new SharedDeviceState.setup_notifications
    StateObserver.receiverDisconnected SharedDeviceState.notify
  simp only [List.length_append, List.length_cons, List.length_nil]
  refine ⟨by omega, trivial, ?_, ?_, by simp, by simp⟩
  · rw [listModify_getElem?, if_pos rfl, List.append_assoc,
      List.getElem?_append_right (by omega)]
    simp
  · rw [listModify_getElem?, if_neg (by omega),
      @List.getElem?_append _ (s.queues ++ [[]]) [[]] s.queues.length,
      if_pos (by simp), List.getElem?_concat_length]

/-- Witness for `single_slot_subscriber_replaces` at a fresh state. -/
theorem single_slot_subscriber_replaces_witness :
    (StateObserver.new 1 SharedDeviceState.new).1.rx
      ≠ (StateObserver.new 2
          (StateObserver.new 1 SharedDeviceState.new).2).1.rx
    ∧ (StateObserver.new 1 SharedDeviceState.new).1.receiverDisconnected
        (StateObserver.new 2
          (StateObserver.new 1 SharedDeviceState.new).2).2 :=
  ⟨(single_slot_subscriber_replaces SharedDeviceState.new 1 2
      StateChangeType.FullUpdate).1,
   (single_slot_subscriber_replaces SharedDeviceState.new 1 2
      StateChangeType.FullUpdate).2.2.2.2.1⟩

/-- Scenario A's 4-pin shared state: four freshly initialised pins. -/
def scenarioAState : SharedDeviceState :=
  { SharedDeviceState.new with
      state := { DeviceState.new with
        pins := [PinData.default, PinData.default, PinData.default,
          PinData.default] } }

/-- **C1, counterexample**: on the 4-pin state, `set_digital_output(2, true)`
followed by `get_digital_input(2)` returns `some false`, not `some true`:
the setter writes the output register `digital_value_set` while the getter
reads the separate input register `digital_value_get`. -/
theorem scenarioA_get_after_set_counterexample :
    ¬ (((scenarioAState.set_digital_output 1000 2 true).1).get_digital_input 2
        = some true) := by decide

/-- `set_digital_output` never changes any pin's input register, so every
`get_digital_input` result is unchanged by it. -/
theorem set_digital_output_preserves_inputs (s : SharedDeviceState)
    (now pin : Nat) (v : Bool) (p : Nat) :
    ((s.set_digital_output now pin v).1).get_digital_input p
      = s.get_digital_input p := by
  unfold SharedDeviceState.get_digital_input DeviceState.get_digital_input
  unfold SharedDeviceState.set_digital_output
  rw [update_fst_state]
  by_cases hc : pin > 0 ∧ pin ≤ s.state.pins.length
  · rw [if_pos hc]
    simp only [listModify_length]
    by_cases hp : p = 0 ∨ p > s.state.pins.length
    · rw [if_pos hp, if_pos hp]
    · rw [if_neg hp, if_neg hp, listModify_getElem?]
      by_cases he : p - 1 = pin - 1
      · rw [if_pos he]
        cases hx : s.state.pins[p - 1]? <;> simp
      · rw [if_neg he]
  · rw [if_neg hc]

/-- **C1, amended**: on the 4-pin state, after `set_digital_output(2, true)`
the pin-2 output register is 1 but `get_digital_input(2)` returns
`some false` (a fresh pin's input register is 0, and `set_digital_output`
leaves every input register unchanged — first conjunct); `get_digital_input(5)`
is absent (`none`). -/
theorem scenarioA_get_after_set_amended :
    (∀ (s : SharedDeviceState) (now pin : Nat) (v : Bool) (p : Nat),
      ((s.set_digital_output now pin v).1).get_digital_input p
        = s.get_digital_input p)
    ∧ ((scenarioAState.set_digital_output 1000 2 true).1).get_digital_input 2
        = some false
    ∧ ((scenarioAState.set_digital_output 1000 2 true).1).get_digital_input 5
        = none
    ∧ ((scenarioAState.set_digital_output 1000 2 true).1).state.pins.getD 1
        PinData.default
        = { PinData.default with digital_value_set := 1 } :=
  ⟨set_digital_output_preserves_inputs, by decide, by decide, by decide⟩

/-- Controller with one healthy and one failing worker, for witnesses. -/
def exampleController : ThreadControllerImpl :=
  { threads := [⟨3, false⟩, ⟨7, true⟩] }

theorem stop_all_fold (l : List WorkerEntry) (acc : List Nat × List Nat) :
    l.foldl (fun (acc : List Nat × List Nat) t =>
        (acc.1 ++ [t.thread_id],
         if t.sendFails then acc.2 ++ [t.thread_id] else acc.2)) acc
      = (acc.1 ++ l.map (fun t => t.thread_id),
         acc.2 ++ (l.filter (fun t => t.sendFails)).map
           (fun t => t.thread_id)) := by
  induction l generalizing acc with
  | nil => simp
  | cons x xs ih =>
    rw [List.foldl_cons, ih]
    by_cases h : x.sendFails <;> simp [h, List.filter_cons]

/-- **C8**: `stop_all` attempts a `Terminate` send for every registered
worker (never stopping at the first failure), collects exactly the failing
workers as errors, clears the registry unconditionally (afterwards
`list_active_threads` is empty), and returns `Ok` exactly when no per-worker
failure occurred. -/
theorem stop_all_best_effort (c : ThreadControllerImpl) :
    c.stop_all.terminated = c.list_active_threads
    ∧ c.stop_all.errors
        = (c.threads.filter (fun t => t.sendFails)).map (fun t => t.thread_id)
    ∧ c.stop_all.controller.list_active_threads = []
    ∧ (c.stop_all.ok = true ↔ ∀ t ∈ c.threads, t.sendFails = false) := by
  unfold ThreadControllerImpl.stop_all ThreadControllerImpl.list_active_threads
  rw [stop_all_fold]
  simp only [List.nil_append, List.map_nil]
  refine ⟨trivial, trivial, trivial, ?_⟩
  rw [List.isEmpty_iff, List.map_eq_nil_iff, List.filter_eq_nil_iff]
  simp

/-- Witness for `stop_all_best_effort` on `exampleController` (worker 3
healthy, worker 7 failing). -/
theorem stop_all_best_effort_witness :
    exampleController.stop_all.terminated = [3, 7]
    ∧ exampleController.stop_all.errors = [7]
    ∧ exampleController.stop_all.controller.list_active_threads = []
    ∧ exampleController.stop_all.ok = false := by
  have h := stop_all_best_effort exampleController
  refine ⟨h.1.trans (by decide), h.2.1.trans (by decide), h.2.2.1, ?_⟩
  cases hok : exampleController.stop_all.ok
  · rfl
  · exact absurd (h.2.2.2.mp hok ⟨7, true⟩ (by decide)) (by decide)

/-! ## Sync (C2) -/

/-- The last encoder index below `n` whose read fails, with its error: this is
the failure whose `set_error` message survives the encoder loop. -/
def lastEncoderFailure (io : SyncHw) : Nat → Option (Nat × String)
  | 0 => none
  | n + 1 =>
    match io.encoderRes n with
    | some e => some (n, e)
    | none => lastEncoderFailure io n

theorem set_error_fst_state (s : SharedDeviceState) (now : Nat)
    (e : Option String) :
    (s.set_error now e).1.state = { s.state with error_message := e } := by
  unfold SharedDeviceState.set_error
  rw [update_fst_state]

theorem set_error_fst_running (s : SharedDeviceState) (now : Nat)
    (e : Option String) : (s.set_error now e).1.running = s.running := by
  unfold SharedDeviceState.set_error
  rw [update_fst_running]

theorem set_error_fst_paused (s : SharedDeviceState) (now : Nat)
    (e : Option String) : (s.set_error now e).1.paused = s.paused := by
  unfold SharedDeviceState.set_error
  rw [update_fst_paused]

theorem syncEncoderLoop_error_message (io : SyncHw) (now : Nat)
    (s : SharedDeviceState) (n : Nat) :
    (syncEncoderLoop io now s n).state.error_message
      = (match lastEncoderFailure io n with
         | some (i, e) =>
           some ("Failed to refresh encoder " ++ toString i ++ ": " ++ e)
         | none => s.state.error_message) := by
  induction n with
  | zero => rfl
  | succ n ih =>
    cases he : io.encoderRes n with
    | some e =>
      simp only [syncEncoderLoop, lastEncoderFailure, he,
        set_error_fst_state]
    | none =>
      simp only [syncEncoderLoop, lastEncoderFailure, he]
      exact ih

theorem tickFinish_continue (sio : SyncHw) (now : Nat) (ss : Bool)
    (cr : CommandResult) :
    (tickFinish sio now ss cr).syncAttempted = true →
    (tickFinish sio now ss cr).breakLoop = false := by
  unfold tickFinish
  split
  · intro h; simp at h
  · intro _; rfl

theorem ufdwn_fst_state (s : SharedDeviceState) (device : PoKeysDevice)
    (now : Nat) :
    (s.update_from_device_with_notifications device now).1.state
      = s.state.update_from_device device now := by
  simp only [SharedDeviceState.update_from_device_with_notifications]
  rw [sendAll_state, update_fst_state]

/-- A device and a failing digital-inputs read used as the C2
counterexample input. -/
def syncFailDigital : SyncHw :=
  { digitalRes := some "boom"
    analogRes := none
    encoderRes := fun _ => none }

def syncDeviceExample : PoKeysDevice :=
  { model := none
    pins := [⟨1, 0, 7⟩]
    encoders := [⟨5⟩]
    pwm := ⟨[9]⟩ }

/-- **C2, counterexample**: when the digital-inputs read fails, `sync` does
NOT attempt the analog read and does NOT update the shared state from the
device: at the concrete input the attempted-read list omits `analog` and the
pins are left stale, refuting the claim that every failing channel leaves
the remaining reads attempted and the state updated. -/
theorem sync_partial_refresh_counterexample :
    ¬ (ReadChannel.analog
          ∈ (DeviceSync.sync syncFailDigital syncDeviceExample
              SharedDeviceState.new 3).attempted)
    ∧ ¬ ((DeviceSync.sync syncFailDigital syncDeviceExample
            SharedDeviceState.new 3).shared.state.pins
          = syncDeviceExample.pins) := by decide

/-- **C2, amended**: `sync` is best-effort only across encoders.  A failing
digital-inputs read records its error into the shared state's error field
and aborts the sync at once (nothing else read, state not refreshed,
`Err` returned); a failing analog-inputs read likewise aborts after the two
input reads.  When both input reads succeed, every encoder is read, each
encoder failure only records an error (the last one wins) while the
remaining channels are still read, and the shared state is refreshed from
the device with `Ok` returned.  In every case a sync failure never breaks
the worker loop. -/
theorem sync_best_effort_amended (io : SyncHw) (device : PoKeysDevice)
    (s : SharedDeviceState) (now : Nat) (e : String) :
    (io.digitalRes = some e →
        (DeviceSync.sync io device s now).attempted = [ReadChannel.digital]
      ∧ (DeviceSync.sync io device s now).shared.state.error_message
          = some ("Failed to refresh digital inputs: " ++ e)
      ∧ (DeviceSync.sync io device s now).err
          = some ("Failed to refresh digital inputs: " ++ e)
      ∧ (DeviceSync.sync io device s now).shared.state.pins = s.state.pins)
    ∧ (io.digitalRes = none → io.analogRes = some e →
        (DeviceSync.sync io device s now).attempted
          = [ReadChannel.digital, ReadChannel.analog]
      ∧ (DeviceSync.sync io device s now).shared.state.error_message
          = some ("Failed to refresh analog inputs: " ++ e)
      ∧ (DeviceSync.sync io device s now).err
          = some ("Failed to refresh analog inputs: " ++ e)
      ∧ (DeviceSync.sync io device s now).shared.state.pins = s.state.pins)
    ∧ (io.digitalRes = none → io.analogRes = none →
        (DeviceSync.sync io device s now).attempted
          = ReadChannel.digital :: ReadChannel.analog ::
            (List.range device.encoders.length).map ReadChannel.encoder
      ∧ (DeviceSync.sync io device s now).shared.state.pins = device.pins
      ∧ (DeviceSync.sync io device s now).shared.state.encoders
          = device.encoders
      ∧ (DeviceSync.sync io device s now).shared.state.pwm = device.pwm
      ∧ (DeviceSync.sync io device s now).shared.state.model = device.model
      ∧ (DeviceSync.sync io device s now).err = none
      ∧ (DeviceSync.sync io device s now).shared.state.error_message
          = (match lastEncoderFailure io device.encoders.length with
             | some (i, e2) =>
               some ("Failed to refresh encoder " ++ toString i ++ ": " ++ e2)
             | none => s.state.error_message))
    ∧ (∀ (cio : CmdHw) (dev2 : PoKeysDevice) (sh : SharedDeviceState)
          (recv : Option DeviceCommand) (cd ss : Bool),
        (runTick cio io dev2 sh now recv cd ss).syncAttempted = true →
        (runTick cio io dev2 sh now recv cd ss).breakLoop = false) := by
  refine ⟨?_, ?_, ?_, ?_⟩
  · intro hd
    unfold DeviceSync.sync
    rw [hd]
    dsimp only
    rw [set_error_fst_state]
    exact ⟨rfl, rfl, rfl, rfl⟩
  · intro hd ha
    unfold DeviceSync.sync
    rw [hd, ha]
    dsimp only
    rw [set_error_fst_state]
    exact ⟨rfl, rfl, rfl, rfl⟩
  · intro hd ha
    unfold DeviceSync.sync
    rw [hd, ha]
    dsimp only
    rw [ufdwn_fst_state]
    unfold DeviceState.update_from_device
    exact ⟨rfl, rfl, rfl, rfl, rfl, rfl,
      syncEncoderLoop_error_message io now s device.encoders.length⟩
  · intro cio dev2 sh recv cd ss
    unfold runTick
    exact tickFinish_continue io now ss _

/-- Witness for `sync_best_effort_amended`: the digital-failure case at the
concrete counterexample input, and the all-reads-succeed case where one
encoder read fails yet the state is refreshed from the device. -/
theorem sync_best_effort_amended_witness :
    ((DeviceSync.sync syncFailDigital syncDeviceExample
        SharedDeviceState.new 3).attempted = [ReadChannel.digital]
      ∧ (DeviceSync.sync syncFailDigital syncDeviceExample
          SharedDeviceState.new 3).shared.state.error_message
        = some "Failed to refresh digital inputs: boom")
    ∧ ((DeviceSync.sync
          ⟨none, none, fun _ => some "enc dead"⟩ syncDeviceExample
          SharedDeviceState.new 3).shared.state.pins = syncDeviceExample.pins)
    ∧ (runTick
        ⟨none, none, fun _ => none, none, syncDeviceExample⟩
        syncFailDigital syncDeviceExample SharedDeviceState.new 3
        none false true).breakLoop = false := by
  refine ⟨⟨?_, ?_⟩, ?_, ?_⟩
  · exact ((sync_best_effort_amended syncFailDigital syncDeviceExample
      SharedDeviceState.new 3 "boom").1 rfl).1
  · exact (((sync_best_effort_amended syncFailDigital syncDeviceExample
      SharedDeviceState.new 3 "boom").1 rfl).2.1).trans (by decide)
  · exact ((sync_best_effort_amended
      ⟨none, none, fun _ => some "enc dead"⟩ syncDeviceExample
      SharedDeviceState.new 3 "x").2.2.1 rfl rfl).2.1
  · exact (sync_best_effort_amended syncFailDigital syncDeviceExample
      SharedDeviceState.new 3 "boom").2.2.2
      ⟨none, none, fun _ => none, none, syncDeviceExample⟩
      syncDeviceExample SharedDeviceState.new none false true (by decide)

/-! ## Worker command handlers (C7, C10) -/

theorem set_paused_fst_state (s : SharedDeviceState) (b : Bool) :
    (s.set_paused b).1.state = s.state := by
  unfold SharedDeviceState.set_paused
  dsimp only
  split
  · rw [notify_state]
  · rfl

theorem set_paused_fst_paused (s : SharedDeviceState) (b : Bool) :
    (s.set_paused b).1.paused = b := by
  unfold SharedDeviceState.set_paused
  dsimp only
  split
  · rw [notify_paused]
  · rfl

theorem set_paused_fst_running (s : SharedDeviceState) (b : Bool) :
    (s.set_paused b).1.running = s.running := by
  unfold SharedDeviceState.set_paused
  dsimp only
  split
  · rw [notify_running]
  · rfl

theorem status_running_of_flags (s : SharedDeviceState)
    (hr : s.running = true) (hp : s.paused = false) :
    s.status = ThreadStatus.Running := by
  simp [SharedDeviceState.status, hr, hp]

theorem status_paused_of_flags (s : SharedDeviceState)
    (hr : s.running = true) (hp : s.paused = true) :
    s.status = ThreadStatus.Paused := by
  simp [SharedDeviceState.status, hr, hp]

theorem updateModelMidState_state (s : SharedDeviceState) (now : Nat)
    (m : DeviceModel) :
    (updateModelMidState s now m).state = { s.state with model := some m } := by
  unfold updateModelMidState
  rw [set_paused_fst_state, update_fst_state]

theorem updateModelMidState_paused (s : SharedDeviceState) (now : Nat)
    (m : DeviceModel) : (updateModelMidState s now m).paused = true := by
  unfold updateModelMidState
  rw [set_paused_fst_paused]

theorem updateModelMidState_running (s : SharedDeviceState) (now : Nat)
    (m : DeviceModel) :
    (updateModelMidState s now m).running = s.running := by
  unfold updateModelMidState
  rw [set_paused_fst_running, update_fst_running]

/-- **C7**: the `UpdateModel(m)` handler swaps the whole model field to
`Some(m)`, holds `paused = true` during the teardown/reconnect (the
mid-state status is `Paused` when the worker was running) and restores
`paused = false` afterwards (status back to `Running` when the worker was
running); a reconnect failure records its message into the shared error
field while the worker neither breaks its loop nor retries (exactly one
reconnect attempt); a successful reconnect re-attaches the model to the
fresh handle. -/
theorem update_model_hot_swap (io : CmdHw) (device : PoKeysDevice)
    (s : SharedDeviceState) (now : Nat) (m : DeviceModel) (e : String) :
    (updateModelMidState s now m).paused = true
    ∧ (s.running = true →
        (updateModelMidState s now m).status = ThreadStatus.Paused)
    ∧ (processCommand io device s now
        (DeviceCommand.UpdateModel m)).shared.state.model = some m
    ∧ (processCommand io device s now
        (DeviceCommand.UpdateModel m)).shared.paused = false
    ∧ (s.running = true →
        (processCommand io device s now
          (DeviceCommand.UpdateModel m)).shared.status = ThreadStatus.Running)
    ∧ (processCommand io device s now
        (DeviceCommand.UpdateModel m)).breakLoop = false
    ∧ (processCommand io device s now
        (DeviceCommand.UpdateModel m)).reconnectAttempts = 1
    ∧ (io.reconnectRes = some e →
        (processCommand io device s now
          (DeviceCommand.UpdateModel m)).shared.state.error_message
          = some ("Failed to reconnect to device: " ++ e))
    ∧ (io.reconnectRes = none →
        (processCommand io device s now
          (DeviceCommand.UpdateModel m)).device
          = { io.reconnectDevice with model := some m }) := by
  refine ⟨updateModelMidState_paused s now m, ?_, ?_, ?_, ?_, ?_, ?_, ?_, ?_⟩
  · intro hr
    exact status_paused_of_flags _
      (by rw [updateModelMidState_running]; exact hr)
      (updateModelMidState_paused s now m)
  · cases hio : io.reconnectRes with
    | none =>
      simp only [processCommand, hio]
      rw [set_paused_fst_state, updateModelMidState_state]
    | some e2 =>
      simp only [processCommand, hio]
      rw [set_paused_fst_state, update_fst_state, updateModelMidState_state]
  · cases hio : io.reconnectRes <;>
      simp only [processCommand, hio, set_paused_fst_paused]
  · intro hr
    cases hio : io.reconnectRes with
    | none =>
      refine status_running_of_flags _ ?_ ?_
      · simp only [processCommand, hio]
        rw [set_paused_fst_running, updateModelMidState_running]
        exact hr
      · simp only [processCommand, hio, set_paused_fst_paused]
    | some e2 =>
      refine status_running_of_flags _ ?_ ?_
      · simp only [processCommand, hio]
        rw [set_paused_fst_running, update_fst_running,
          updateModelMidState_running]
        exact hr
      · simp only [processCommand, hio, set_paused_fst_paused]
  · cases hio : io.reconnectRes <;> simp only [processCommand, hio]
  · cases hio : io.reconnectRes <;> simp only [processCommand, hio]
  · intro hio
    simp only [processCommand, hio]
    rw [set_paused_fst_state, update_fst_state]
  · intro hio
    simp only [processCommand, hio]
    rw [updateModelMidState_state]

/-- Example model and hardware-outcome records for witnesses. -/
def exampleModel : DeviceModel := ⟨"PoKeys57E"⟩

def reconnectOkHw : CmdHw :=
  { setDigitalRes := none
    setAnalogRes := none
    setPwmRes := fun _ => none
    reconnectRes := none
    reconnectDevice := syncDeviceExample }

def reconnectFailHw : CmdHw :=
  { setDigitalRes := none
    setAnalogRes := none
    setPwmRes := fun _ => none
    reconnectRes := some "gone"
    reconnectDevice := syncDeviceExample }

/-- Witness for `update_model_hot_swap`: a running worker, one successful
and one failing reconnect. -/
theorem update_model_hot_swap_witness :
    (updateModelMidState runningExample 3 exampleModel).status
        = ThreadStatus.Paused
    ∧ (processCommand reconnectOkHw syncDeviceExample runningExample 3
        (DeviceCommand.UpdateModel exampleModel)).shared.status
        = ThreadStatus.Running
    ∧ (processCommand reconnectFailHw syncDeviceExample runningExample 3
        (DeviceCommand.UpdateModel exampleModel)).shared.state.error_message
        = some ("Failed to reconnect to device: " ++ "gone")
    ∧ (processCommand reconnectOkHw syncDeviceExample runningExample 3
        (DeviceCommand.UpdateModel exampleModel)).device
        = { syncDeviceExample with model := some exampleModel } :=
  ⟨(update_model_hot_swap reconnectOkHw syncDeviceExample runningExample 3
      exampleModel "gone").2.1 rfl,
   (update_model_hot_swap reconnectOkHw syncDeviceExample runningExample 3
      exampleModel "gone").2.2.2.2.1 rfl,
   (update_model_hot_swap reconnectFailHw syncDeviceExample runningExample 3
      exampleModel "gone").2.2.2.2.2.2.2.1 rfl,
   (update_model_hot_swap reconnectOkHw syncDeviceExample runningExample 3
      exampleModel "gone").2.2.2.2.2.2.2.2 rfl⟩

theorem set_pwm_duty_cycle_stores (s : SharedDeviceState)
    (now channel duty : Nat) (h : channel < s.state.pwm.pwm_values.length) :
    (s.set_pwm_duty_cycle now channel duty).1.state.pwm.pwm_values[channel]?
      = some duty := by
  unfold SharedDeviceState.set_pwm_duty_cycle
  rw [update_fst_state, if_pos h]
  dsimp only
  rw [listModify_getElem?, if_pos rfl, List.getElem?_eq_getElem h]
  rfl

/-- **C10**: a `SetPwmDuty` command with channel above 5 makes no hardware
call, leaves the shared state entirely unchanged and runs `continue`
(skipping even that tick's sync); a channel in `0..=5` is mapped to device
pin `22 - channel` for the single hardware call, and on hardware success the
shared state's PWM duty for that channel becomes the commanded duty. -/
theorem set_pwm_duty_command (cio : CmdHw) (sio : SyncHw)
    (device : PoKeysDevice) (s : SharedDeviceState) (now channel duty : Nat) :
    (channel > 5 →
        (processCommand cio device s now
          (DeviceCommand.SetPwmDuty channel duty)).shared = s
      ∧ (processCommand cio device s now
          (DeviceCommand.SetPwmDuty channel duty)).pwmPinsCalled = []
      ∧ (processCommand cio device s now
          (DeviceCommand.SetPwmDuty channel duty)).skipped = true
      ∧ (runTick cio sio device s now
          (some (DeviceCommand.SetPwmDuty channel duty)) false true).shared
          = s
      ∧ (runTick cio sio device s now
          (some (DeviceCommand.SetPwmDuty channel duty)) false
            true).syncAttempted = false)
    ∧ (channel ≤ 5 →
        (processCommand cio device s now
          (DeviceCommand.SetPwmDuty channel duty)).pwmPinsCalled
          = [22 - channel])
    ∧ (channel ≤ 5 → cio.setPwmRes (22 - channel) = none →
        (processCommand cio device s now
          (DeviceCommand.SetPwmDuty channel duty)).shared
          = (s.set_pwm_duty_cycle now channel duty).1
      ∧ (channel < s.state.pwm.pwm_values.length →
          (processCommand cio device s now
            (DeviceCommand.SetPwmDuty channel
              duty)).shared.state.pwm.pwm_values[channel]? = some duty)) := by
  refine ⟨?_, ?_, ?_⟩
  · intro h
    have hc : ¬(channel ≤ 5) := by omega
    have hshared : (processCommand cio device s now
        (DeviceCommand.SetPwmDuty channel duty)).shared = s := by
      simp only [processCommand, if_neg hc]
    have hskip : (processCommand cio device s now
        (DeviceCommand.SetPwmDuty channel duty)).skipped = true := by
      simp only [processCommand, if_neg hc]
    refine ⟨hshared, by simp only [processCommand, if_neg hc], hskip, ?_, ?_⟩
    · unfold runTick tickFinish
      dsimp only
      rw [if_pos (Or.inr (Or.inl hskip))]
      exact hshared
    · unfold runTick tickFinish
      dsimp only
      rw [if_pos (Or.inr (Or.inl hskip))]
  · intro h
    cases hres : cio.setPwmRes (22 - channel) <;>
      simp only [processCommand, if_pos h, hres]
  · intro h hres
    have hshared : (processCommand cio device s now
        (DeviceCommand.SetPwmDuty channel duty)).shared
        = (s.set_pwm_duty_cycle now channel duty).1 := by
      simp only [processCommand, if_pos h, hres]
    refine ⟨hshared, ?_⟩
    intro hlen
    rw [hshared]
    exact set_pwm_duty_cycle_stores s now channel duty hlen

/-- Shared state with six PWM channels, for the C10 witness. -/
def pwmStateExample : SharedDeviceState :=
  { SharedDeviceState.new with
      state := { DeviceState.new with pwm := ⟨[0, 0, 0, 0, 0, 0]⟩ } }

/-- Witness for `set_pwm_duty_command`: channel 9 is silently skipped,
channel 1 maps to pin 21 and stores duty 500. -/
theorem set_pwm_duty_command_witness :
    (processCommand reconnectOkHw syncDeviceExample pwmStateExample 3
      (DeviceCommand.SetPwmDuty 9 500)).shared = pwmStateExample
    ∧ (processCommand reconnectOkHw syncDeviceExample pwmStateExample 3
        (DeviceCommand.SetPwmDuty 1 500)).pwmPinsCalled = [21]
    ∧ (processCommand reconnectOkHw syncDeviceExample pwmStateExample 3
        (DeviceCommand.SetPwmDuty 1 500)).shared.state.pwm.pwm_values[1]?
      = some 500 :=
  ⟨((set_pwm_duty_command reconnectOkHw syncFailDigital syncDeviceExample
      pwmStateExample 3 9 500).1 (by decide)).1,
   ((set_pwm_duty_command reconnectOkHw syncFailDigital syncDeviceExample
      pwmStateExample 3 1 500).2.1 (by decide)).trans (by decide),
   ((set_pwm_duty_command reconnectOkHw syncFailDigital syncDeviceExample
      pwmStateExample 3 1 500).2.2 (by decide) rfl).2 (by decide)⟩

end PokeysThread
